import Mathlib

/-!
Shallow embedding of the multi-agent orchestration workflow
(`src/orchestrator/workflow.py`) of the AI Knowledge Orchestrator.

The workflow threads a single mutable `WorkflowState` record through a
graph of nodes (router, research, code, decision, synthesizer, validator).
Python dictionaries are embedded as insertion-ordered association lists,
Python floats as rationals, and the external collaborators (agent
`process` calls, the LLM combining call of the synthesizer, and the
routing result of the decision agent) as explicit parameters: a node that
in Python awaits an external call here receives the outcome of that call
(`Except` for a call that may raise) as an argument.  Wall-clock
measurements are likewise passed in as parameters.
-/

namespace Orchestrator

/-- `QueryType` enum of `models/schemas.py`. -/
inductive QueryType where
  | RESEARCH
  | CODE
  | DECISION
  | GENERAL
deriving DecidableEq, Repr

/-- `QueryStatus` enum of `models/schemas.py`. -/
inductive QueryStatus where
  | PENDING
  | PROCESSING
  | COMPLETED
  | FAILED
  | CANCELLED
deriving DecidableEq, Repr

/-- `AgentType` enum of `models/schemas.py`. -/
inductive AgentType where
  | RESEARCH
  | CODE
  | DECISION
  | ORCHESTRATOR
deriving DecidableEq, Repr

/-- `ProcessingPriority` enum of `models/schemas.py`. -/
inductive ProcessingPriority where
  | LOW
  | MEDIUM
  | HIGH
  | CRITICAL
deriving DecidableEq, Repr

/-- `AgentResponse` model of `models/schemas.py` (the fields the workflow
reads and writes; the free-form `metadata` mapping is never consulted by
the workflow and is omitted). -/
structure AgentResponse where
  agent_type : AgentType
  content : String
  confidence : ℚ
  processing_time : ℚ
  sources : List String
  error : Option String
deriving DecidableEq, Repr

/-- The record stored in `state["metadata"]["validation"]` by
`validate_response` (the wall-clock `timestamp` field is omitted). -/
structure ValidationRecord where
  is_valid : Bool
  issues : List String
deriving DecidableEq, Repr

/-- Insertion-ordered association-list lookup: `d.get(k)` on a Python
dict embedded as a list of key/value pairs. -/
def dictLookup {α : Type} : List (String × α) → String → Option α
  | [], _ => none
  | (k', v) :: rest, k => if k' = k then some v else dictLookup rest k

/-- Insertion-ordered association-list update: `d[k] = v` on a Python
dict.  An existing key keeps its position; a new key is appended. -/
def dictInsert {α : Type} : List (String × α) → String → α → List (String × α)
  | [], k, v => [(k, v)]
  | (k', v') :: rest, k, v =>
      if k' = k then (k, v) :: rest else (k', v') :: dictInsert rest k v

/-- The keys of an embedded Python dict, in insertion order. -/
def dictKeys {α : Type} (d : List (String × α)) : List String :=
  d.map Prod.fst

/-- The values of an embedded Python dict, in insertion order
(`d.values()`). -/
def dictValues {α : Type} (d : List (String × α)) : List α :=
  d.map Prod.snd

/-- `WorkflowState` TypedDict of `workflow.py`.  `messages` keeps only the
human-readable content strings of the LangChain message objects.  The
`metadata` mapping is represented by its single workflow-written key,
`metadata["validation"]` (`validation` field below); the caller-supplied
part of `metadata` is never read by the workflow logic. -/
structure WorkflowState where
  query_id : String
  original_query : String
  query_type : QueryType
  priority : ProcessingPriority
  next_agent : Option String
  agents_visited : List String
  messages : List String
  agent_responses : List (String × AgentResponse)
  current_status : QueryStatus
  confidence_scores : List (String × ℚ)
  processing_times : List (String × ℚ)
  final_response : Option String
  total_confidence : ℚ
  validation : Option ValidationRecord
  errors : List String
  retry_count : Nat
deriving DecidableEq, Repr

/-- `agents[0].value.lower()`: role name of an `AgentType`. -/
def agentRoleName : AgentType → String
  | .RESEARCH => "research"
  | .CODE => "code"
  | .DECISION => "decision"
  | .ORCHESTRATOR => "orchestrator"

/-- `priority.value` rendered into the router's log message. -/
def priorityValue : ProcessingPriority → String
  | .LOW => "LOW"
  | .MEDIUM => "MEDIUM"
  | .HIGH => "HIGH"
  | .CRITICAL => "CRITICAL"

/-- `query.lower()`: character-wise lower-casing of a Python string. -/
def lowerStr (s : String) : String :=
  String.mk (s.data.map Char.toLower)

/-- Whether the first list is an initial segment of the second. -/
def charsStartWith : List Char → List Char → Bool
  | [], _ => true
  | _ :: _, [] => false
  | c :: cs, d :: ds => c == d && charsStartWith cs ds

/-- Whether the first list occurs as a contiguous sublist of the second. -/
def charsContain (pat : List Char) : List Char → Bool
  | [] => pat.isEmpty
  | d :: ds => charsStartWith pat (d :: ds) || charsContain pat ds

/-- Python's substring test `pat in s`. -/
def hasSubstr (s pat : String) : Bool :=
  charsContain pat.data s.data

/-- `OrchestrationWorkflow.route_query` (`workflow.py`).  The external
`decision_agent.route_query` call returns `(agents, priority)`; both are
taken as parameters here.  Sets the priority, marks the query PROCESSING,
picks the first routed agent (defaulting to research) and logs a system
message. -/
def route_query (agents : List AgentType) (priority : ProcessingPriority)
    (s : WorkflowState) : WorkflowState :=
  let next : String :=
    match agents with
    | [] => "research"
    | a :: _ => lowerStr (agentRoleName a)
  { s with
    priority := priority
    current_status := QueryStatus.PROCESSING
    next_agent := some next
    messages := s.messages ++
      ["Query routed to " ++ next ++ " agent with " ++ priorityValue priority ++ " priority"] }

/-- `OrchestrationWorkflow.research_node` (`workflow.py`).  `outcome` is
the result of `await self.research_agent.process(context)` (`Except.error`
when the call raises) and `elapsed` the measured wall-clock duration. -/
def research_node (outcome : Except String AgentResponse) (elapsed : ℚ)
    (s : WorkflowState) : WorkflowState :=
  match outcome with
  | Except.ok response =>
      { s with
        agent_responses := dictInsert s.agent_responses "research" response
        confidence_scores := dictInsert s.confidence_scores "research" response.confidence
        processing_times := dictInsert s.processing_times "research" elapsed
        agents_visited := s.agents_visited ++ ["research"]
        messages := s.messages ++
          ["Research completed: " ++ response.content.take 200 ++ "..."] }
  | Except.error e =>
      { s with
        errors := s.errors ++ ["Research agent: " ++ e]
        agent_responses := dictInsert s.agent_responses "research"
          { agent_type := AgentType.RESEARCH
            content := "Research failed"
            confidence := 0
            processing_time := 0
            sources := []
            error := some e } }

/-- `OrchestrationWorkflow.code_node` (`workflow.py`). -/
def code_node (outcome : Except String AgentResponse) (elapsed : ℚ)
    (s : WorkflowState) : WorkflowState :=
  match outcome with
  | Except.ok response =>
      { s with
        agent_responses := dictInsert s.agent_responses "code" response
        confidence_scores := dictInsert s.confidence_scores "code" response.confidence
        processing_times := dictInsert s.processing_times "code" elapsed
        agents_visited := s.agents_visited ++ ["code"]
        messages := s.messages ++
          ["Code generation completed: " ++ response.content.take 200 ++ "..."] }
  | Except.error e =>
      { s with
        errors := s.errors ++ ["Code agent: " ++ e]
        agent_responses := dictInsert s.agent_responses "code"
          { agent_type := AgentType.CODE
            content := "Code generation failed"
            confidence := 0
            processing_time := 0
            sources := []
            error := some e } }

/-- `OrchestrationWorkflow.decision_node` (`workflow.py`).  The previous
responses are passed to the collaborator through the context record and
do not change the state-update logic. -/
def decision_node (outcome : Except String AgentResponse) (elapsed : ℚ)
    (s : WorkflowState) : WorkflowState :=
  match outcome with
  | Except.ok response =>
      { s with
        agent_responses := dictInsert s.agent_responses "decision" response
        confidence_scores := dictInsert s.confidence_scores "decision" response.confidence
        processing_times := dictInsert s.processing_times "decision" elapsed
        agents_visited := s.agents_visited ++ ["decision"]
        messages := s.messages ++
          ["Decision made: " ++ response.content.take 200 ++ "..."] }
  | Except.error e =>
      { s with
        errors := s.errors ++ ["Decision agent: " ++ e]
        agent_responses := dictInsert s.agent_responses "decision"
          { agent_type := AgentType.DECISION
            content := "Decision failed"
            confidence := 0
            processing_time := 0
            sources := []
            error := some e } }

/-- Weight given to one agent response when averaging confidences:
`1.0 if response.error is None else 0.5`. -/
def responseWeight (r : AgentResponse) : ℚ :=
  if r.error = none then 1 else mkRat 1 2

/-- The weighted-average confidence the synthesizer computes over two or
more responses: `sum(confidence_i * w_i) / sum(w_i)`, defaulting to `0.5`
when the total weight is not positive. -/
def weightedConfidence (rs : List AgentResponse) : ℚ :=
  let total_weight := (rs.map responseWeight).sum
  let total := (rs.map (fun r => r.confidence * responseWeight r)).sum
  if 0 < total_weight then total / total_weight else mkRat 1 2

/-- `OrchestrationWorkflow.synthesize_responses` (`workflow.py`).
`combine` is the outcome of `await self.decision_agent.llm.ainvoke(...)`
(its `.content`), the only point of the `try` block that can raise; it is
consulted only on the two-or-more-responses branch.  With no responses a
fixed fallback is produced; with exactly one response its content and
confidence pass through unchanged; on an exception the text
"Failed to synthesize responses" and confidence 0 are produced and the
error is recorded. -/
def synthesize_responses (combine : Except String String)
    (s : WorkflowState) : WorkflowState :=
  if s.agent_responses.isEmpty then
    { s with
      final_response := some "No agent responses available"
      total_confidence := 0 }
  else if s.agent_responses.length = 1 then
    match s.agent_responses with
    | (_, response) :: _ =>
        { s with
          final_response := some response.content
          total_confidence := response.confidence }
    | [] => s
  else
    match combine with
    | Except.ok synthesized =>
        let conf := weightedConfidence (dictValues s.agent_responses)
        { s with
          total_confidence := conf
          final_response := some synthesized
          messages := s.messages ++
            ["Synthesis completed with confidence: " ++ toString conf] }
    | Except.error e =>
        { s with
          errors := s.errors ++ ["Synthesis: " ++ e]
          final_response := some "Failed to synthesize responses"
          total_confidence := 0 }

/-- `not state.get("final_response")`: the final response is missing or
the empty string. -/
def responseMissing (s : WorkflowState) : Bool :=
  match s.final_response with
  | none => true
  | some r => r.isEmpty

/-- `state.get("final_response") and len(state["final_response"]) < 50`:
a present, non-empty final response shorter than 50 characters. -/
def responseTooShort (s : WorkflowState) : Bool :=
  match s.final_response with
  | none => false
  | some r => !r.isEmpty && r.length < 50

/-- `OrchestrationWorkflow.validate_response` (`workflow.py`).  Applies
the four quality checks, records the verdict and the failing conditions
in `metadata["validation"]`, and then either books a retry (incrementing
`retry_count` and leaving the status PROCESSING) or finalises the status
as COMPLETED / FAILED.  The low-confidence and too-many-errors issue
strings interpolate the offending value as in the Python f-strings. -/
def validate_response (max_attempts : Nat) (s : WorkflowState) : WorkflowState :=
  let c1 := responseMissing s
  let c2 := decide (s.total_confidence < mkRat 3 10)
  let c3 := decide (s.errors.length > 2)
  let c4 := responseTooShort s
  let is_valid := !(c1 || c2 || c3 || c4)
  let issues : List String :=
    (if c1 then ["No final response generated"] else []) ++
    (if c2 then ["Low confidence: " ++ toString s.total_confidence] else []) ++
    (if c3 then ["Too many errors: " ++ toString s.errors.length] else []) ++
    (if c4 then ["Response too short"] else [])
  let s' := { s with validation := some { is_valid := is_valid, issues := issues } }
  if is_valid = false ∧ s.retry_count < max_attempts then
    { s' with
      retry_count := s.retry_count + 1
      current_status := QueryStatus.PROCESSING }
  else
    { s' with
      current_status :=
        if is_valid then QueryStatus.COMPLETED else QueryStatus.FAILED }

/-- `state.get("metadata", {}).get("validation", {}).get("is_valid")`
coerced to a boolean (missing record reads as falsy). -/
def validationIsValid (s : WorkflowState) : Bool :=
  match s.validation with
  | some v => v.is_valid
  | none => false

/-- The issues list recorded by the last validation (empty when no
validation has run). -/
def validationIssues (s : WorkflowState) : List String :=
  match s.validation with
  | some v => v.issues
  | none => []

/-- `OrchestrationWorkflow.determine_next_agent` (`workflow.py`): the
conditional edge out of the router. -/
def determine_next_agent (s : WorkflowState) : String :=
  if s.query_type = QueryType.RESEARCH then "research"
  else if s.query_type = QueryType.CODE then "code"
  else if s.query_type = QueryType.DECISION then "decision"
  else "research"

/-- `OrchestrationWorkflow.after_research` (`workflow.py`): the
conditional edge out of the research node. -/
def after_research (s : WorkflowState) : String :=
  if !(s.agents_visited.contains "code") &&
      (decide (s.query_type = QueryType.CODE) ||
        hasSubstr (lowerStr s.original_query) "code") then
    "code"
  else if !(s.agents_visited.contains "decision") &&
      decide (s.query_type = QueryType.DECISION) then
    "decision"
  else
    "synthesizer"

/-- `OrchestrationWorkflow.after_code` (`workflow.py`): the conditional
edge out of the code node. -/
def after_code (s : WorkflowState) : String :=
  if !(s.agents_visited.contains "research") &&
      (decide (s.query_type = QueryType.DECISION) ||
        decide ((dictLookup s.confidence_scores "code").getD 0 < mkRat 7 10)) then
    "research"
  else
    "synthesizer"

/-- `OrchestrationWorkflow.after_decision` (`workflow.py`). -/
def after_decision (_s : WorkflowState) : String :=
  "synthesizer"

/-- `OrchestrationWorkflow.should_retry` (`workflow.py`): the conditional
edge out of the validator; "router" re-enters the loop, "end" terminates
the graph. -/
def should_retry (max_attempts : Nat) (s : WorkflowState) : String :=
  if validationIsValid s = false ∧ s.retry_count < max_attempts then "router"
  else "end"

/-- The nodes of the LangGraph state graph built by `_build_workflow`. -/
inductive Node where
  | router
  | research
  | code
  | decision
  | synthesizer
  | validator
deriving DecidableEq, Repr

/-- Maps the string labels produced by the conditional-edge functions to
graph nodes.  Every label those functions can return is matched
explicitly; "synthesizer" doubles as the final catch-all. -/
def nodeOfName (n : String) : Node :=
  if n = "router" then Node.router
  else if n = "research" then Node.research
  else if n = "code" then Node.code
  else if n = "decision" then Node.decision
  else if n = "validator" then Node.validator
  else Node.synthesizer

/-- The environment of external collaborators for one workflow run: the
outcome each external call produces at the k-th node invocation of the
run.  `routeAgents`/`routePriority` embed the decision agent's
`route_query` result, `researchCall`/`codeCall`/`decisionCall` the agent
`process` calls (with their measured durations), and `combineCall` the
synthesizer's LLM invocation. -/
structure Env where
  routeAgents : Nat → List AgentType
  routePriority : Nat → ProcessingPriority
  researchCall : Nat → Except String AgentResponse
  researchTime : Nat → ℚ
  codeCall : Nat → Except String AgentResponse
  codeTime : Nat → ℚ
  decisionCall : Nat → Except String AgentResponse
  decisionTime : Nat → ℚ
  combineCall : Nat → Except String String

/-- Fuel-bounded interpreter of the compiled LangGraph graph: runs the
node functions and follows the edge table of `_build_workflow` (router
and the agent nodes through their conditional edges, synthesizer
unconditionally to validator, validator through `should_retry` back to
the router or to END).  `k` counts node invocations to index into the
environment; `fuel` bounds the number of node executions. -/
def runFrom (env : Env) (max_attempts : Nat) :
    Nat → Node → Nat → WorkflowState → WorkflowState
  | 0, _, _, s => s
  | fuel + 1, Node.router, k, s =>
      let s' := route_query (env.routeAgents k) (env.routePriority k) s
      runFrom env max_attempts fuel (nodeOfName (determine_next_agent s')) (k + 1) s'
  | fuel + 1, Node.research, k, s =>
      let s' := research_node (env.researchCall k) (env.researchTime k) s
      runFrom env max_attempts fuel (nodeOfName (after_research s')) (k + 1) s'
  | fuel + 1, Node.code, k, s =>
      let s' := code_node (env.codeCall k) (env.codeTime k) s
      runFrom env max_attempts fuel (nodeOfName (after_code s')) (k + 1) s'
  | fuel + 1, Node.decision, k, s =>
      let s' := decision_node (env.decisionCall k) (env.decisionTime k) s
      runFrom env max_attempts fuel (nodeOfName (after_decision s')) (k + 1) s'
  | fuel + 1, Node.synthesizer, k, s =>
      let s' := synthesize_responses (env.combineCall k) s
      runFrom env max_attempts fuel Node.validator (k + 1) s'
  | fuel + 1, Node.validator, k, s =>
      let s' := validate_response max_attempts s
      if should_retry max_attempts s' = "router" then
        runFrom env max_attempts fuel Node.router (k + 1) s'
      else s'

/-- The `initial_state` literal built at the top of
`OrchestrationWorkflow.execute`. -/
def initialState (query_id query : String) (query_type : QueryType) : WorkflowState :=
  { query_id := query_id
    original_query := query
    query_type := query_type
    priority := ProcessingPriority.MEDIUM
    next_agent := none
    agents_visited := []
    messages := [query]
    agent_responses := []
    current_status := QueryStatus.PENDING
    confidence_scores := []
    processing_times := []
    final_response := none
    total_confidence := 0
    validation := none
    errors := []
    retry_count := 0 }

/-- The final `WorkflowState` of one `execute` run: the graph started at
the router on the initial state. -/
def finalWorkflowState (env : Env) (max_attempts fuel : Nat)
    (query_id query : String) (query_type : QueryType) : WorkflowState :=
  runFrom env max_attempts fuel Node.router 0 (initialState query_id query query_type)

/-- The result record `OrchestrationWorkflow.execute` returns to its
caller on the non-raising path (every field is read off the final state;
the dict-`get` defaults of the Python code are dead because the state
keys are always present). -/
structure ExecResult where
  query_id : String
  status : QueryStatus
  response : Option String
  confidence : ℚ
  agents_used : List String
  processing_times : List (String × ℚ)
  errors : List String
  validation : Option ValidationRecord
deriving DecidableEq, Repr

/-- `OrchestrationWorkflow.execute` (`workflow.py`): builds the initial
state, runs the graph, and packages the final state into the result
record. -/
def execute (env : Env) (max_attempts fuel : Nat)
    (query_id query : String) (query_type : QueryType) : ExecResult :=
  let f := finalWorkflowState env max_attempts fuel query_id query query_type
  { query_id := query_id
    status := f.current_status
    response := f.final_response
    confidence := f.total_confidence
    agents_used := f.agents_visited
    processing_times := f.processing_times
    errors := f.errors
    validation := f.validation }

/-- One message of the `AgentCommunicationProtocol` queues (`workflow.py`);
the wall-clock `timestamp` string is supplied by the caller's clock. -/
structure Message where
  fromAgent : String
  toAgent : String
  msgType : String
  content : String
  timestamp : String
deriving DecidableEq, Repr

/-- `AgentCommunicationProtocol` state: the `agent_registry` and
`message_queue` dicts, with collaborator handles drawn from an arbitrary
type `α`. -/
structure Protocol (α : Type) where
  message_queue : List (String × List Message)
  agent_registry : List (String × α)

/-- `AgentCommunicationProtocol.register_agent` (`workflow.py`): stores
the handle under the role name and unconditionally resets that role's
message queue to the empty list. -/
def register_agent {α : Type} (p : Protocol α) (agent_name : String)
    (agent_instance : α) : Protocol α :=
  { p with
    agent_registry := dictInsert p.agent_registry agent_name agent_instance
    message_queue := dictInsert p.message_queue agent_name [] }

/-- `AgentCommunicationProtocol.send_message` (`workflow.py`): appends to
the destination queue when the destination is registered in
`message_queue`, otherwise drops the message. -/
def send_message {α : Type} (p : Protocol α)
    (from_agent to_agent message_type : String) (content timestamp : String) :
    Protocol α :=
  match dictLookup p.message_queue to_agent with
  | some q =>
      { p with
        message_queue := dictInsert p.message_queue to_agent
          (q ++ [{ fromAgent := from_agent, toAgent := to_agent,
                   msgType := message_type, content := content,
                   timestamp := timestamp }]) }
  | none => p

/-- `AgentCommunicationProtocol.receive_messages` (`workflow.py`):
returns the queued messages and clears the queue. -/
def receive_messages {α : Type} (p : Protocol α) (agent_name : String) :
    List Message × Protocol α :=
  match dictLookup p.message_queue agent_name with
  | some q => (q, { p with message_queue := dictInsert p.message_queue agent_name [] })
  | none => ([], p)

/-- One node execution of the workflow graph, with the external
collaborator outcomes chosen arbitrarily.  This over-approximates the
paths of the compiled graph: any node may fire in any state, so an
invariant over `Step` covers every actual execution order. -/
inductive Step (max_attempts : Nat) : WorkflowState → WorkflowState → Prop where
  | router (agents : List AgentType) (priority : ProcessingPriority)
      (s : WorkflowState) : Step max_attempts s (route_query agents priority s)
  | research (outcome : Except String AgentResponse) (elapsed : ℚ)
      (s : WorkflowState) : Step max_attempts s (research_node outcome elapsed s)
  | code (outcome : Except String AgentResponse) (elapsed : ℚ)
      (s : WorkflowState) : Step max_attempts s (code_node outcome elapsed s)
  | decision (outcome : Except String AgentResponse) (elapsed : ℚ)
      (s : WorkflowState) : Step max_attempts s (decision_node outcome elapsed s)
  | synthesizer (combine : Except String String) (s : WorkflowState) :
      Step max_attempts s (synthesize_responses combine s)
  | validator (s : WorkflowState) :
      Step max_attempts s (validate_response max_attempts s)

/-- States reachable from some initial state by node executions. -/
inductive Reachable (max_attempts : Nat) : WorkflowState → Prop where
  | init (query_id query : String) (query_type : QueryType) :
      Reachable max_attempts (initialState query_id query query_type)
  | step {s s' : WorkflowState} : Reachable max_attempts s →
      Step max_attempts s s' → Reachable max_attempts s'

/-- A predicate preserved by every node function is preserved by `Step`. -/
theorem step_preserves {max_attempts : Nat} (P : WorkflowState → Prop)
    (hroute : ∀ a pr s, P s → P (route_query a pr s))
    (hres : ∀ o t s, P s → P (research_node o t s))
    (hcode : ∀ o t s, P s → P (code_node o t s))
    (hdec : ∀ o t s, P s → P (decision_node o t s))
    (hsyn : ∀ c s, P s → P (synthesize_responses c s))
    (hval : ∀ s, P s → P (validate_response max_attempts s)) :
    ∀ {s s' : WorkflowState}, Step max_attempts s s' → P s → P s' := by
  intro s s' h hp
  cases h with
  | router a pr s => exact hroute a pr s hp
  | research o t s => exact hres o t s hp
  | code o t s => exact hcode o t s hp
  | decision o t s => exact hdec o t s hp
  | synthesizer c s => exact hsyn c s hp
  | validator s => exact hval s hp

/-- A predicate holding in every initial state and preserved by every
node function holds in every reachable state. -/
theorem reachable_preserves {max_attempts : Nat} (P : WorkflowState → Prop)
    (hinit : ∀ qid q qt, P (initialState qid q qt))
    (hroute : ∀ a pr s, P s → P (route_query a pr s))
    (hres : ∀ o t s, P s → P (research_node o t s))
    (hcode : ∀ o t s, P s → P (code_node o t s))
    (hdec : ∀ o t s, P s → P (decision_node o t s))
    (hsyn : ∀ c s, P s → P (synthesize_responses c s))
    (hval : ∀ s, P s → P (validate_response max_attempts s)) :
    ∀ {s : WorkflowState}, Reachable max_attempts s → P s := by
  intro s h
  induction h with
  | init qid q qt => exact hinit qid q qt
  | step _ hstep ih =>
      exact step_preserves P hroute hres hcode hdec hsyn hval hstep ih

/-- A predicate preserved by every node function is preserved by the
graph interpreter, whatever the fuel, start node and environment. -/
theorem runFrom_preserves {max_attempts : Nat} (P : WorkflowState → Prop) (env : Env)
    (hroute : ∀ a pr s, P s → P (route_query a pr s))
    (hres : ∀ o t s, P s → P (research_node o t s))
    (hcode : ∀ o t s, P s → P (code_node o t s))
    (hdec : ∀ o t s, P s → P (decision_node o t s))
    (hsyn : ∀ c s, P s → P (synthesize_responses c s))
    (hval : ∀ s, P s → P (validate_response max_attempts s)) :
    ∀ (fuel : Nat) (n : Node) (k : Nat) (s : WorkflowState),
      P s → P (runFrom env max_attempts fuel n k s) := by
  intro fuel
  induction fuel with
  | zero => intro n k s hp; simpa [runFrom] using hp
  | succ fuel ih =>
      intro n k s hp
      cases n with
      | router =>
          simp only [runFrom]
          exact ih _ _ _ (hroute _ _ _ hp)
      | research =>
          simp only [runFrom]
          exact ih _ _ _ (hres _ _ _ hp)
      | code =>
          simp only [runFrom]
          exact ih _ _ _ (hcode _ _ _ hp)
      | decision =>
          simp only [runFrom]
          exact ih _ _ _ (hdec _ _ _ hp)
      | synthesizer =>
          simp only [runFrom]
          exact ih _ _ _ (hsyn _ _ hp)
      | validator =>
          simp only [runFrom]
          split
          · exact ih _ _ _ (hval _ hp)
          · exact hval _ hp

/-- Looking up the key just inserted yields the inserted value. -/
theorem dictLookup_insert_self {α : Type} (d : List (String × α)) (k : String) (v : α) :
    dictLookup (dictInsert d k v) k = some v := by
  induction d with
  | nil => simp [dictInsert, dictLookup]
  | cons p rest ih =>
      obtain ⟨k', v'⟩ := p
      by_cases h : k' = k <;> simp [dictInsert, dictLookup, h, ih]

/-- Key membership after an insertion: the new key or an old one. -/
theorem mem_dictKeys_insert {α : Type} (d : List (String × α)) (k r : String) (v : α) :
    r ∈ dictKeys (dictInsert d k v) ↔ r = k ∨ r ∈ dictKeys d := by
  induction d with
  | nil => simp [dictInsert, dictKeys]
  | cons p rest ih =>
      obtain ⟨k', v'⟩ := p
      by_cases h : k' = k
      · subst h
        simp [dictInsert, dictKeys]
      · simp [dictInsert, dictKeys, h] at ih ⊢
        tauto

/-- The synthesizer never touches the visited list. -/
theorem synthesize_visited_eq (c : Except String String) (s : WorkflowState) :
    (synthesize_responses c s).agents_visited = s.agents_visited := by
  simp only [synthesize_responses]
  repeat' split
  all_goals rfl

/-- The synthesizer never touches the response map. -/
theorem synthesize_responses_eq (c : Except String String) (s : WorkflowState) :
    (synthesize_responses c s).agent_responses = s.agent_responses := by
  simp only [synthesize_responses]
  repeat' split
  all_goals rfl

/-- The synthesizer never touches the retry counter. -/
theorem synthesize_retry_eq (c : Except String String) (s : WorkflowState) :
    (synthesize_responses c s).retry_count = s.retry_count := by
  simp only [synthesize_responses]
  repeat' split
  all_goals rfl

/-- The validator changes neither the visited list nor the response map. -/
theorem validate_visited_responses_eq (max_attempts : Nat) (s : WorkflowState) :
    (validate_response max_attempts s).agents_visited = s.agents_visited ∧
    (validate_response max_attempts s).agent_responses = s.agent_responses := by
  simp only [validate_response]
  split
  all_goals exact ⟨rfl, rfl⟩

/-- The validator leaves the retry counter unchanged or, when it books a
retry, increments it by one while it is still below the bound. -/
theorem validate_retry_cases (max_attempts : Nat) (s : WorkflowState) :
    (validate_response max_attempts s).retry_count = s.retry_count ∨
    ((validate_response max_attempts s).retry_count = s.retry_count + 1 ∧
      s.retry_count < max_attempts) := by
  simp only [validate_response]
  split
  · rename_i h
    exact Or.inr ⟨rfl, h.2⟩
  · exact Or.inl rfl

/-- A research response whose content is well-formed but short, so that
the validator's length gate rejects every generation of the run. -/
def shortResearchResp : AgentResponse :=
  { agent_type := AgentType.RESEARCH
    content := "ok"
    confidence := mkRat 9 10
    processing_time := 0
    sources := []
    error := none }

/-- An environment in which the decision agent routes to research, the
research agent always succeeds with `shortResearchResp`, and the other
collaborators are never reached. -/
def shortRunEnv : Env :=
  { routeAgents := fun _ => [AgentType.RESEARCH]
    routePriority := fun _ => ProcessingPriority.MEDIUM
    researchCall := fun _ => Except.ok shortResearchResp
    researchTime := fun _ => 0
    codeCall := fun _ => Except.error "not reached"
    codeTime := fun _ => 0
    decisionCall := fun _ => Except.error "not reached"
    decisionTime := fun _ => 0
    combineCall := fun _ => Except.ok "not reached" }

/-- C1: refuted by the code — `execute` can return a result whose status
is PROCESSING.  With `retry_max_attempts = 3` and a GENERAL query whose
single successful research response is only 2 characters long, every
generation fails the validator's length gate; on the third failure
`validate_response` increments `retry_count` to 3 and sets the status to
PROCESSING, after which `should_retry` sees `retry_count <
max_attempts` false and ends the run, so the PROCESSING status is
returned.  The FAILED branch of `validate_response` is unreachable on
this loop because `retry_count` enters the validator strictly below the
maximum in every generation. -/
theorem execute_returns_processing_on_exhausted_retries :
    (execute shortRunEnv 3 20 "q-1" "hello" QueryType.GENERAL).status =
      QueryStatus.PROCESSING ∧
    (execute shortRunEnv 3 20 "q-1" "hello" QueryType.GENERAL).validation =
      some { is_valid := false, issues := ["Response too short"] } ∧
    (finalWorkflowState shortRunEnv 3 20 "q-1" "hello" QueryType.GENERAL).retry_count = 3 := by
  refine ⟨by decide, by decide, by decide⟩

/-- A state about to enter the validator on its last bookable retry:
`retry_count = 2` with `retry_max_attempts = 3`, and a final response
that fails the length gate. -/
def lastRetryState : WorkflowState :=
  { initialState "q-2" "short answer" QueryType.GENERAL with
    current_status := QueryStatus.PROCESSING
    agents_visited := ["research"]
    final_response := some "ok"
    total_confidence := mkRat 9 10
    retry_count := 2 }

/-- C4: refuted by the code — when validation fails with
`retry_count = max_attempts - 1`, the validator books the retry
(increment to the maximum, status left PROCESSING) but `should_retry`,
re-checking the bound after the increment, routes to END instead of back
to ROUTER, so the claimed ROUTER transition does not happen and the
claimed terminal FAILED status is never reached on this path. -/
theorem validator_last_retry_goes_to_end_not_router :
    lastRetryState.retry_count < 3 ∧
    validationIsValid (validate_response 3 lastRetryState) = false ∧
    (validate_response 3 lastRetryState).retry_count = 3 ∧
    (validate_response 3 lastRetryState).current_status = QueryStatus.PROCESSING ∧
    should_retry 3 (validate_response 3 lastRetryState) = "end" := by
  refine ⟨by decide, by decide, by decide, by decide, by decide⟩

/-- C5: `retry_count` starts at 0, never decreases across any node
execution, and never exceeds the configured maximum in any reachable
state; consequently the final state of any run (whose fields the result
record copies) also respects the bound. -/
theorem retry_count_monotone_and_bounded (max_attempts : Nat) :
    (∀ s : WorkflowState, Reachable max_attempts s → s.retry_count ≤ max_attempts) ∧
    (∀ s s' : WorkflowState, Step max_attempts s s' →
      s.retry_count ≤ s'.retry_count) ∧
    (∀ (env : Env) (fuel : Nat) (qid q : String) (qt : QueryType),
      (finalWorkflowState env max_attempts fuel qid q qt).retry_count ≤ max_attempts) := by
  have hroute : ∀ (a : List AgentType) (pr : ProcessingPriority) (s : WorkflowState),
      (route_query a pr s).retry_count = s.retry_count := by
    intro a pr s; rfl
  have hres : ∀ (o : Except String AgentResponse) (t : ℚ) (s : WorkflowState),
      (research_node o t s).retry_count = s.retry_count := by
    intro o t s; cases o <;> rfl
  have hcode : ∀ (o : Except String AgentResponse) (t : ℚ) (s : WorkflowState),
      (code_node o t s).retry_count = s.retry_count := by
    intro o t s; cases o <;> rfl
  have hdec : ∀ (o : Except String AgentResponse) (t : ℚ) (s : WorkflowState),
      (decision_node o t s).retry_count = s.retry_count := by
    intro o t s; cases o <;> rfl
  have hval : ∀ s : WorkflowState, s.retry_count ≤ max_attempts →
      (validate_response max_attempts s).retry_count ≤ max_attempts := by
    intro s h
    rcases validate_retry_cases max_attempts s with hc | ⟨hc, hlt⟩
    · omega
    · omega
  have hbound : ∀ s : WorkflowState, Reachable max_attempts s →
      s.retry_count ≤ max_attempts := by
    intro s h
    refine reachable_preserves (fun s => s.retry_count ≤ max_attempts)
      ?_ ?_ ?_ ?_ ?_ ?_ ?_ h
    · intro qid q qt; simp [initialState]
    · intro a pr s hp; rw [hroute]; exact hp
    · intro o t s hp; rw [hres]; exact hp
    · intro o t s hp; rw [hcode]; exact hp
    · intro o t s hp; rw [hdec]; exact hp
    · intro c s hp; rw [synthesize_retry_eq]; exact hp
    · intro s hp; exact hval s hp
  refine ⟨hbound, ?_, ?_⟩
  · intro s s' h
    cases h with
    | router a pr s => rw [hroute]
    | research o t s => rw [hres]
    | code o t s => rw [hcode]
    | decision o t s => rw [hdec]
    | synthesizer c s => rw [synthesize_retry_eq]
    | validator s =>
        rcases validate_retry_cases max_attempts s with hc | ⟨hc, _⟩ <;> omega
  · intro env fuel qid q qt
    refine runFrom_preserves (fun s => s.retry_count ≤ max_attempts) env
      ?_ ?_ ?_ ?_ ?_ ?_ fuel Node.router 0 (initialState qid q qt) ?_
    · intro a pr s hp; rw [hroute]; exact hp
    · intro o t s hp; rw [hres]; exact hp
    · intro o t s hp; rw [hcode]; exact hp
    · intro o t s hp; rw [hdec]; exact hp
    · intro c s hp; rw [synthesize_retry_eq]; exact hp
    · intro s hp; exact hval s hp
    · simp [initialState]

/-- Witness for C5: the bound, the step monotonicity, and the
final-state bound instantiated at concrete inputs. -/
theorem retry_count_monotone_and_bounded_witness :
    (initialState "q-w5" "hi" QueryType.GENERAL).retry_count ≤ 3 ∧
    (initialState "q-w5" "hi" QueryType.GENERAL).retry_count ≤
      (validate_response 3 (initialState "q-w5" "hi" QueryType.GENERAL)).retry_count ∧
    (finalWorkflowState shortRunEnv 3 20 "q-w5" "hi" QueryType.GENERAL).retry_count ≤ 3 := by
  refine ⟨(retry_count_monotone_and_bounded 3).1 _ (Reachable.init "q-w5" "hi" QueryType.GENERAL),
    (retry_count_monotone_and_bounded 3).2.1 _ _ (Step.validator _),
    (retry_count_monotone_and_bounded 3).2.2 shortRunEnv 20 "q-w5" "hi" QueryType.GENERAL⟩

/-- The state produced by a code node whose collaborator raised,
starting from a fresh CODE query. -/
def failedCodeState : WorkflowState :=
  code_node (Except.error "crash") 0 (initialState "q-3" "write code" QueryType.CODE)

/-- C3: refuted by the code — after a code node whose collaborator
raised, the role "code" has an entry in `agent_responses` but was never
appended to `agents_visited`, so the two do not describe the same set of
roles. -/
theorem visited_responses_mismatch_on_failure :
    "code" ∈ dictKeys failedCodeState.agent_responses ∧
    "code" ∉ failedCodeState.agents_visited := by
  refine ⟨by decide, by decide⟩

/-- C3 (amended): in every reachable state, every role in
`agents_visited` has an entry in `agent_responses`; the converse fails on
failure paths, where the failed role gains an `agent_responses` entry
without being appended to `agents_visited`, so `agents_visited` is in
general only a subset of the response keys. -/
theorem agents_visited_subset_of_responses (max_attempts : Nat) (s : WorkflowState)
    (h : Reachable max_attempts s) :
    ∀ r ∈ s.agents_visited, r ∈ dictKeys s.agent_responses := by
  refine reachable_preserves
    (fun s => ∀ r ∈ s.agents_visited, r ∈ dictKeys s.agent_responses)
    ?_ ?_ ?_ ?_ ?_ ?_ ?_ h
  · intro qid q qt; simp [initialState, dictKeys]
  · intro a pr s hp; simpa [route_query] using hp
  · intro o t s hp r hr
    cases o with
    | ok resp =>
        simp only [research_node] at hr ⊢
        rw [mem_dictKeys_insert]
        rcases List.mem_append.1 hr with h1 | h1
        · exact Or.inr (hp r h1)
        · simp only [List.mem_singleton] at h1
          exact Or.inl h1
    | error e =>
        simp only [research_node] at hr ⊢
        rw [mem_dictKeys_insert]
        exact Or.inr (hp r hr)
  · intro o t s hp r hr
    cases o with
    | ok resp =>
        simp only [code_node] at hr ⊢
        rw [mem_dictKeys_insert]
        rcases List.mem_append.1 hr with h1 | h1
        · exact Or.inr (hp r h1)
        · simp only [List.mem_singleton] at h1
          exact Or.inl h1
    | error e =>
        simp only [code_node] at hr ⊢
        rw [mem_dictKeys_insert]
        exact Or.inr (hp r hr)
  · intro o t s hp r hr
    cases o with
    | ok resp =>
        simp only [decision_node] at hr ⊢
        rw [mem_dictKeys_insert]
        rcases List.mem_append.1 hr with h1 | h1
        · exact Or.inr (hp r h1)
        · simp only [List.mem_singleton] at h1
          exact Or.inl h1
    | error e =>
        simp only [decision_node] at hr ⊢
        rw [mem_dictKeys_insert]
        exact Or.inr (hp r hr)
  · intro c s hp r hr
    rw [synthesize_visited_eq] at hr
    rw [synthesize_responses_eq]
    exact hp r hr
  · intro s hp r hr
    rw [(validate_visited_responses_eq max_attempts s).1] at hr
    rw [(validate_visited_responses_eq max_attempts s).2]
    exact hp r hr

/-- Witness for the amended C3: a successful research step from the
initial state yields a reachable state whose visited role "research"
indeed has a response entry. -/
theorem agents_visited_subset_of_responses_witness :
    "research" ∈ dictKeys
      (research_node (Except.ok shortResearchResp) 0
        (initialState "q-w3" "hi" QueryType.GENERAL)).agent_responses := by
  exact agents_visited_subset_of_responses 3 _
    (Reachable.step (Reachable.init "q-w3" "hi" QueryType.GENERAL)
      (Step.research (Except.ok shortResearchResp) 0 _))
    "research" (by decide)

/-- The state produced by a research node whose collaborator raised,
starting from a fresh GENERAL query. -/
def failedResearchState : WorkflowState :=
  research_node (Except.error "boom") 0 (initialState "q-2c" "hello" QueryType.GENERAL)

/-- C2: refuted by the code — on a collaborator failure the research
node stores the degraded response and the error string, but performs
none of the claimed success-path side effects: no confidence score, no
processing time, no visit record, no summary message. -/
theorem research_failure_skips_success_side_effects :
    "research" ∈ dictKeys failedResearchState.agent_responses ∧
    "research" ∉ failedResearchState.agents_visited ∧
    dictLookup failedResearchState.confidence_scores "research" = none ∧
    dictLookup failedResearchState.processing_times "research" = none ∧
    failedResearchState.messages = ["hello"] := by
  refine ⟨by decide, by decide, by decide, by decide, by decide⟩

/-- C2 (amended): when the collaborator's `process` call raises, each
agent node absorbs the failure — it stores a degraded `AgentResponse`
with confidence 0.0 and the error text under the role's key and appends
a descriptive string to `errors` — but it does NOT perform the
success-path side effects: `confidence_scores`, `processing_times`,
`agents_visited` and `messages` are all left unchanged. -/
theorem agent_node_failure_effects (s : WorkflowState) (e : String) (t : ℚ) :
    (dictLookup (research_node (Except.error e) t s).agent_responses "research" =
        some { agent_type := AgentType.RESEARCH, content := "Research failed",
               confidence := 0, processing_time := 0, sources := [], error := some e } ∧
      (research_node (Except.error e) t s).errors = s.errors ++ ["Research agent: " ++ e] ∧
      (research_node (Except.error e) t s).confidence_scores = s.confidence_scores ∧
      (research_node (Except.error e) t s).processing_times = s.processing_times ∧
      (research_node (Except.error e) t s).agents_visited = s.agents_visited ∧
      (research_node (Except.error e) t s).messages = s.messages) ∧
    (dictLookup (code_node (Except.error e) t s).agent_responses "code" =
        some { agent_type := AgentType.CODE, content := "Code generation failed",
               confidence := 0, processing_time := 0, sources := [], error := some e } ∧
      (code_node (Except.error e) t s).errors = s.errors ++ ["Code agent: " ++ e] ∧
      (code_node (Except.error e) t s).confidence_scores = s.confidence_scores ∧
      (code_node (Except.error e) t s).processing_times = s.processing_times ∧
      (code_node (Except.error e) t s).agents_visited = s.agents_visited ∧
      (code_node (Except.error e) t s).messages = s.messages) ∧
    (dictLookup (decision_node (Except.error e) t s).agent_responses "decision" =
        some { agent_type := AgentType.DECISION, content := "Decision failed",
               confidence := 0, processing_time := 0, sources := [], error := some e } ∧
      (decision_node (Except.error e) t s).errors = s.errors ++ ["Decision agent: " ++ e] ∧
      (decision_node (Except.error e) t s).confidence_scores = s.confidence_scores ∧
      (decision_node (Except.error e) t s).processing_times = s.processing_times ∧
      (decision_node (Except.error e) t s).agents_visited = s.agents_visited ∧
      (decision_node (Except.error e) t s).messages = s.messages) := by
  refine ⟨⟨?_, rfl, rfl, rfl, rfl, rfl⟩, ⟨?_, rfl, rfl, rfl, rfl, rfl⟩,
    ⟨?_, rfl, rfl, rfl, rfl, rfl⟩⟩
  · exact dictLookup_insert_self s.agent_responses "research" _
  · exact dictLookup_insert_self s.agent_responses "code" _
  · exact dictLookup_insert_self s.agent_responses "decision" _

/-- A state holding two agent responses: research with confidence 0.9
and no error, code with confidence 0.2 carrying an error — the worked
example of the specification. -/
def mixedResponsesState : WorkflowState :=
  { initialState "q-6" "summarize findings" QueryType.GENERAL with
    agent_responses :=
      [("research",
        { agent_type := AgentType.RESEARCH, content := "research text",
          confidence := mkRat 9 10, processing_time := 0, sources := [],
          error := none }),
       ("code",
        { agent_type := AgentType.CODE, content := "code text",
          confidence := mkRat 1 5, processing_time := 0, sources := [],
          error := some "timeout" })] }

/-- C6: the synthesizer's confidence is a pure function of
`agent_responses` on the non-failing path: no responses give the fixed
fallback text and confidence 0; one response passes content and
confidence through unchanged and ignores the combining capability
entirely; two or more responses give the weighted average with weight 1
for an error-free response and 1/2 otherwise (default 1/2 at total
weight 0), so confidences 0.9 (no error) and 0.2 (with error) yield
exactly 2/3 ≈ 0.6667. -/
theorem synthesizer_confidence_spec (s : WorkflowState)
    (c c' : Except String String) (t : String) :
    (s.agent_responses = [] →
      (synthesize_responses c s).final_response = some "No agent responses available" ∧
      (synthesize_responses c s).total_confidence = 0 ∧
      synthesize_responses c s = synthesize_responses c' s) ∧
    (∀ (k : String) (r : AgentResponse), s.agent_responses = [(k, r)] →
      (synthesize_responses c s).final_response = some r.content ∧
      (synthesize_responses c s).total_confidence = r.confidence ∧
      synthesize_responses c s = synthesize_responses c' s) ∧
    (2 ≤ s.agent_responses.length →
      (synthesize_responses (Except.ok t) s).total_confidence =
        weightedConfidence (dictValues s.agent_responses)) ∧
    (synthesize_responses (Except.ok t) mixedResponsesState).total_confidence = 2 / 3 := by
  refine ⟨?_, ?_, ?_, ?_⟩
  · intro h
    refine ⟨?_, ?_, ?_⟩ <;> simp [synthesize_responses, h]
  · intro k r h
    refine ⟨?_, ?_, ?_⟩ <;> simp [synthesize_responses, h]
  · intro h
    match hs : s.agent_responses, h with
    | x :: y :: rest, _ =>
        simp [synthesize_responses, hs]
  · show (synthesize_responses (Except.ok t) mixedResponsesState).total_confidence = 2 / 3
    simp [synthesize_responses, mixedResponsesState, initialState, weightedConfidence,
      dictValues, responseWeight, Rat.mkRat_eq_div]
    norm_num

/-- Witness for C6: the three hypothetical branches instantiated at
concrete states. -/
theorem synthesizer_confidence_spec_witness :
    (synthesize_responses (Except.ok "t") (initialState "q-w6" "hi" QueryType.GENERAL)).final_response =
      some "No agent responses available" ∧
    (synthesize_responses (Except.ok "t")
        { initialState "q-w6b" "hi" QueryType.GENERAL with
          agent_responses := [("research", shortResearchResp)] }).total_confidence =
      shortResearchResp.confidence ∧
    (synthesize_responses (Except.ok "t") mixedResponsesState).total_confidence =
      weightedConfidence (dictValues mixedResponsesState.agent_responses) := by
  refine ⟨((synthesizer_confidence_spec (initialState "q-w6" "hi" QueryType.GENERAL)
      (Except.ok "t") (Except.ok "t") "t").1 rfl).1,
    (((synthesizer_confidence_spec
      { initialState "q-w6b" "hi" QueryType.GENERAL with
        agent_responses := [("research", shortResearchResp)] }
      (Except.ok "t") (Except.ok "t") "t").2.1 "research" shortResearchResp rfl)).2.1,
    (synthesizer_confidence_spec mixedResponsesState
      (Except.ok "t") (Except.ok "t") "t").2.2.1 (by decide)⟩

/-- The verdict the validator records, as a function of the four checks. -/
theorem validate_isValid_eq (max_attempts : Nat) (s : WorkflowState) :
    validationIsValid (validate_response max_attempts s) =
      !(responseMissing s || decide (s.total_confidence < mkRat 3 10) ||
        decide (s.errors.length > 2) || responseTooShort s) := by
  simp only [validate_response]
  split <;> rfl

/-- The issues list the validator records, one entry per failing check,
in check order. -/
theorem validate_issues_eq (max_attempts : Nat) (s : WorkflowState) :
    validationIssues (validate_response max_attempts s) =
      (if responseMissing s then ["No final response generated"] else []) ++
      (if decide (s.total_confidence < mkRat 3 10) then
        ["Low confidence: " ++ toString s.total_confidence] else []) ++
      (if decide (s.errors.length > 2) then
        ["Too many errors: " ++ toString s.errors.length] else []) ++
      (if responseTooShort s then ["Response too short"] else []) := by
  simp only [validate_response]
  split <;> rfl

/-- C7: the validator rejects a state exactly when the final response is
absent or empty, the total confidence is strictly below 0.3 (so exactly
0.3 passes), more than two errors have accumulated, or the final
response is shorter than 50 characters; each failing condition is
recorded in the validation issues.  The check is a pure function of the
state — no external calls are modelled because the source makes none. -/
theorem validator_gate_spec (max_attempts : Nat) (s : WorkflowState) :
    (validationIsValid (validate_response max_attempts s) = false ↔
      (s.final_response = none ∨ s.final_response = some "" ∨
        s.total_confidence < mkRat 3 10 ∨ 2 < s.errors.length ∨
        (∃ r, s.final_response = some r ∧ r.length < 50))) ∧
    ((s.final_response = none ∨ s.final_response = some "") →
      "No final response generated" ∈ validationIssues (validate_response max_attempts s)) ∧
    (s.total_confidence < mkRat 3 10 →
      ("Low confidence: " ++ toString s.total_confidence) ∈
        validationIssues (validate_response max_attempts s)) ∧
    (2 < s.errors.length →
      ("Too many errors: " ++ toString s.errors.length) ∈
        validationIssues (validate_response max_attempts s)) ∧
    (∀ r : String, s.final_response = some r → ¬r = "" → r.length < 50 →
      "Response too short" ∈ validationIssues (validate_response max_attempts s)) := by
  have hemp : String.isEmpty "" = true := by decide
  refine ⟨?_, ?_, ?_, ?_, ?_⟩
  · rw [validate_isValid_eq]
    cases hf : s.final_response with
    | none => simp [responseMissing, responseTooShort, hf]
    | some r =>
        by_cases hr : r = ""
        · subst hr
          simp [responseMissing, responseTooShort, hf, hemp]
        · have he : r.isEmpty = false := by
            cases hx : r.isEmpty with
            | false => rfl
            | true => exact absurd ((String.isEmpty_iff r).mp hx) hr
          by_cases h2 : s.total_confidence < mkRat 3 10 <;>
            by_cases h3 : 2 < s.errors.length <;>
            by_cases h4 : r.length < 50 <;>
            simp [responseMissing, responseTooShort, hf, he, h2, h3, h4, hr]
  · intro h
    rw [validate_issues_eq]
    rcases h with h | h
    · simp [responseMissing, h]
    · simp [responseMissing, h, hemp]
  · intro h
    rw [validate_issues_eq]
    simp [h]
  · intro h
    rw [validate_issues_eq]
    simp [h]
  · intro r hf hne hlt
    have he : r.isEmpty = false := by
      cases hx : r.isEmpty with
      | false => rfl
      | true => exact absurd ((String.isEmpty_iff r).mp hx) hne
    rw [validate_issues_eq]
    simp [responseTooShort, hf, hlt, he]

/-- A state whose final response has 49 characters, confidence 0.9 and
no errors: must fail validation on the length gate alone. -/
def shortFinalState : WorkflowState :=
  { initialState "q-7" "hello" QueryType.GENERAL with
    final_response := some "1234567890123456789012345678901234567890123456789"
    total_confidence := mkRat 9 10 }

/-- A state whose final response has 50 characters and whose confidence
is exactly 0.3: must pass validation. -/
def exactGateState : WorkflowState :=
  { initialState "q-7b" "hello" QueryType.GENERAL with
    final_response := some "12345678901234567890123456789012345678901234567890"
    total_confidence := mkRat 3 10 }

/-- Witness for C7: the 49-character response with high confidence is
rejected with the length issue recorded, and confidence exactly 0.3 with
a 50-character response passes. -/
theorem validator_gate_spec_witness :
    validationIsValid (validate_response 3 shortFinalState) = false ∧
    "Response too short" ∈ validationIssues (validate_response 3 shortFinalState) ∧
    validationIsValid (validate_response 3 exactGateState) = true := by
  refine ⟨?_, ?_, by decide⟩
  · exact (validator_gate_spec 3 shortFinalState).1.mpr
      (Or.inr (Or.inr (Or.inr (Or.inr ⟨_, rfl, by decide⟩))))
  · exact (validator_gate_spec 3 shortFinalState).2.2.2.2 _ rfl (by decide) (by decide)

/-- A state holding two error-free agent responses, about to be
combined by the synthesizer. -/
def twoRespFailState : WorkflowState :=
  { initialState "q-8" "broad question" QueryType.GENERAL with
    agent_responses :=
      [("research",
        { agent_type := AgentType.RESEARCH, content := "research text",
          confidence := mkRat 4 5, processing_time := 0, sources := [],
          error := none }),
       ("decision",
        { agent_type := AgentType.DECISION, content := "decision text",
          confidence := mkRat 3 5, processing_time := 0, sources := [],
          error := none })] }

/-- C8: refuted by the code — when the combining call raises, the
synthesizer's fallback text is "Failed to synthesize responses", not the
zero-response fallback "No agent responses available" the claim names
(the confidence 0.0 part does hold). -/
theorem synthesis_failure_text_is_not_fallback :
    (synthesize_responses (Except.error "LLM unavailable") twoRespFailState).final_response =
      some "Failed to synthesize responses" ∧
    (synthesize_responses (Except.error "LLM unavailable") twoRespFailState).final_response ≠
      some "No agent responses available" ∧
    (synthesize_responses (Except.error "LLM unavailable") twoRespFailState).total_confidence = 0 := by
  refine ⟨by decide, by decide, by decide⟩

/-- C8 (amended): if the combining call of the synthesizer raises, the
synthesizer yields the text "Failed to synthesize responses" as
`final_response` with `total_confidence` 0.0 and records the error in
`errors`; the failure is non-fatal — the graph's unconditional edge still
carries the state from the synthesizer to the validator. -/
theorem synthesize_failure_effects (s : WorkflowState) (e : String)
    (h : 2 ≤ s.agent_responses.length) :
    (synthesize_responses (Except.error e) s).final_response =
      some "Failed to synthesize responses" ∧
    (synthesize_responses (Except.error e) s).total_confidence = 0 ∧
    (synthesize_responses (Except.error e) s).errors = s.errors ++ ["Synthesis: " ++ e] ∧
    (∀ (env : Env) (max_attempts fuel k : Nat),
      runFrom env max_attempts (fuel + 1) Node.synthesizer k s =
        runFrom env max_attempts fuel Node.validator (k + 1)
          (synthesize_responses (env.combineCall k) s)) := by
  refine ⟨?_, ?_, ?_, ?_⟩
  · match hs : s.agent_responses, h with
    | x :: y :: rest, _ => simp [synthesize_responses, hs]
  · match hs : s.agent_responses, h with
    | x :: y :: rest, _ => simp [synthesize_responses, hs]
  · match hs : s.agent_responses, h with
    | x :: y :: rest, _ => simp [synthesize_responses, hs]
  · intro env max_attempts fuel k
    rfl

/-- Witness for the amended C8: the two-response state satisfies the
length hypothesis and the error is recorded. -/
theorem synthesize_failure_effects_witness :
    2 ≤ twoRespFailState.agent_responses.length ∧
    (synthesize_responses (Except.error "LLM unavailable") twoRespFailState).errors =
      twoRespFailState.errors ++ ["Synthesis: LLM unavailable"] :=
  ⟨by decide,
   (synthesize_failure_effects twoRespFailState "LLM unavailable" (by decide)).2.2.1⟩

/-- C9: the transition after the research node follows the claimed
order — CODE when the code role is unvisited and the query type is CODE
or the lower-cased query contains "code"; otherwise DECISION when the
decision role is unvisited and the query type is DECISION; otherwise the
synthesizer.  In particular a GENERAL query without the "code" substring
and with the code role unvisited goes straight to the synthesizer. -/
theorem after_research_transition_spec (s : WorkflowState) :
    (after_research s =
      if "code" ∉ s.agents_visited ∧
          (s.query_type = QueryType.CODE ∨
            hasSubstr (lowerStr s.original_query) "code" = true) then "code"
      else if "decision" ∉ s.agents_visited ∧ s.query_type = QueryType.DECISION then
        "decision"
      else "synthesizer") ∧
    (s.query_type = QueryType.GENERAL →
      hasSubstr (lowerStr s.original_query) "code" = false →
      "code" ∉ s.agents_visited →
      after_research s = "synthesizer") := by
  constructor
  · cases hq : s.query_type <;>
      by_cases h1 : "code" ∈ s.agents_visited <;>
      by_cases h3 : hasSubstr (lowerStr s.original_query) "code" = true <;>
      by_cases h4 : "decision" ∈ s.agents_visited <;>
      simp [after_research, List.elem_iff, hq, h1, h3, h4]
  · intro hg hsub hv
    simp [after_research, List.elem_iff, hg, hsub, hv]

/-- A GENERAL-query state whose research pass is done and whose query
text has no "code" substring. -/
def generalResearchedState : WorkflowState :=
  { initialState "q-9" "explain photosynthesis" QueryType.GENERAL with
    agents_visited := ["research"] }

/-- Witness for C9: the GENERAL query with no "code" substring really
transitions from research to the synthesizer. -/
theorem after_research_transition_spec_witness :
    after_research generalResearchedState = "synthesizer" :=
  (after_research_transition_spec generalResearchedState).2 rfl (by decide) (by decide)

/-- C10: re-registering a role overwrites its collaborator handle and
resets its message queue to the empty list, discarding every pending
message that `receive_messages` has not yet drained. -/
theorem register_agent_overwrites_and_clears_queue {α : Type} (p : Protocol α)
    (name : String) (inst : α) (pending : List Message)
    (hq : dictLookup p.message_queue name = some pending) :
    dictLookup (register_agent p name inst).agent_registry name = some inst ∧
    dictLookup (register_agent p name inst).message_queue name = some [] :=
  ⟨dictLookup_insert_self p.agent_registry name inst,
   dictLookup_insert_self p.message_queue name []⟩

/-- A message sitting undrained in the research role's queue. -/
def pendingMsg : Message :=
  { fromAgent := "code", toAgent := "research", msgType := "status",
    content := "ping", timestamp := "2024-01-01T00:00:00" }

/-- A protocol state with the research role registered and one pending
message queued for it. -/
def demoProtocol : Protocol String :=
  { message_queue := [("research", [pendingMsg])]
    agent_registry := [("research", "research-handle-1")] }

/-- Witness for C10: re-registering "research" replaces the handle and
empties the queue that held `pendingMsg`. -/
theorem register_agent_overwrites_and_clears_queue_witness :
    dictLookup (register_agent demoProtocol "research" "research-handle-2").agent_registry
      "research" = some "research-handle-2" ∧
    dictLookup (register_agent demoProtocol "research" "research-handle-2").message_queue
      "research" = some [] :=
  register_agent_overwrites_and_clears_queue demoProtocol "research" "research-handle-2"
    [pendingMsg] (by decide)

end Orchestrator
